import Mathlib

/-!
Verification of the weather question-answering pipeline of src/main.py.

A shallow embedding of the query-understanding and routing pipeline of the
repository: entity extraction results, date resolution, intent
classification, the temporal router inside `process_question`, the two
OpenWeatherMap client functions `get_weather` and `get_forecast`, and the
entry point `get_weather_response`.

External collaborators are modelled as explicit parameters:
* the spaCy document (`Doc`): the list of recognized entities (label and
  text) and noun chunks (text and the surface text of the head of the
  chunk root), exactly the fields the source reads;
* the `dateparser.parse` call: a function `String → Option PDateTime`;
* `datetime.now()`: one fixed `PDateTime` value per pipeline invocation;
* the HTTP layer: a function `Request → NetResult`, where a `NetResult` is
  either a transport-level failure (`requests.exceptions.RequestException`,
  which also covers non-2xx statuses raised by `raise_for_status` and
  JSON-decoding failures of `response.json()`) or a decoded JSON payload.

Python exceptions are modelled with `Except PyExc`; functions additionally
return the list of HTTP requests they attempted, so that "no network call
is made" is a statement about the returned trace.

A `PDateTime` is a calendar day (days since the Unix epoch) together with
the minutes elapsed within that day; `.day` plays the role of the
Python `datetime.date()` value and the `strftime` formats used by the source are
implemented over this representation.
-/

namespace WeatherBot

/-! ## String helpers: the Python tests `sub in s` and `str.lower()` -/

/-- Is the first list a prefix of the second? -/
def isPrefixL : List Char → List Char → Bool
  | [], _ => true
  | _ :: _, [] => false
  | a :: as, b :: bs => a = b && isPrefixL as bs

/-- Does `needle` occur as a contiguous sublist of the haystack? -/
def hasSubL (needle : List Char) : List Char → Bool
  | [] => isPrefixL needle []
  | a :: as => isPrefixL needle (a :: as) || hasSubL needle as

/-- The Python test `needle in hay` on strings (substring containment). -/
def containsSub (hay needle : String) : Bool :=
  hasSubL needle.data hay.data

/-- The Python method `str.lower()`, character by character (the keyword search of
the source only involves ASCII). -/
def pyLower (s : String) : String := String.mk (s.data.map Char.toLower)

/-- Truthiness of a Python string: non-empty. -/
def pyTruthy (s : String) : Bool := s != ""

/-- Truthiness of an optional Python string (`None` and `""` are falsy). -/
def optTruthy : Option String → Bool
  | none => false
  | some s => pyTruthy s

/-! ## Datetimes and the `strftime` formats used by the source -/

/-- A Python `datetime`, reduced to what the source observes: the calendar
day (`.date()`, as days since 1970-01-01) and the minutes within the day
(for the strftime format `%I:%M %p`).  Seconds never influence any output. -/
structure PDateTime where
  day : Int
  mins : Nat
deriving DecidableEq, Repr

/-- `t + timedelta(days = n)`: same time of day, `n` days later. -/
def addDays (t : PDateTime) (n : Int) : PDateTime :=
  ⟨t.day + n, t.mins⟩

/-- Convert a count of days since 1970-01-01 into a Gregorian civil date
`(year, month, day)` (the civil-from-days algorithm of Howard Hinnant). -/
def civilFromDays (z0 : Int) : Int × Int × Int :=
  let z := z0 + 719468
  let era := Int.fdiv z 146097
  let doe := z - era * 146097
  let yoe := (doe - doe / 1460 + doe / 36524 - doe / 146096) / 365
  let y := yoe + era * 400
  let doy := doe - (365 * yoe + yoe / 4 - yoe / 100)
  let mp := (5 * doy + 2) / 153
  let d := doy - (153 * mp + 2) / 5 + 1
  let m := mp + (if mp < 10 then 3 else -9)
  (y + (if m ≤ 2 then 1 else 0), m, d)

/-- Render a number padded to two digits, as the strftime fields `%m`,
`%d`, `%I` and `%M` do. -/
def pad2 (n : Int) : String :=
  if n < 10 then "0" ++ toString n else toString n

/-- The strftime format `%Y-%m-%d` on a calendar day. -/
def fmtYmd (day : Int) : String :=
  let c := civilFromDays day
  let y := toString c.1
  let m := pad2 c.2.1
  let d := pad2 c.2.2
  y ++ "-" ++ m ++ "-" ++ d

/-- Full month names, for the strftime field `%B` (month is 1-based). -/
def monthName (m : Int) : String :=
  if m = 1 then "January" else if m = 2 then "February"
  else if m = 3 then "March" else if m = 4 then "April"
  else if m = 5 then "May" else if m = 6 then "June"
  else if m = 7 then "July" else if m = 8 then "August"
  else if m = 9 then "September" else if m = 10 then "October"
  else if m = 11 then "November" else "December"

/-- Full weekday names, for the strftime field `%A`; 1970-01-01 (day 0) was a
Thursday. -/
def weekdayName (day : Int) : String :=
  let w := Int.emod (day + 4) 7
  if w = 0 then "Sunday" else if w = 1 then "Monday"
  else if w = 2 then "Tuesday" else if w = 3 then "Wednesday"
  else if w = 4 then "Thursday" else if w = 5 then "Friday"
  else "Saturday"

/-- The strftime format `%A, %B %d` on a calendar day. -/
def fmtWeekdayMonthDay (day : Int) : String :=
  let c := civilFromDays day
  let w := weekdayName day
  let b := monthName c.2.1
  let d := pad2 c.2.2
  w ++ ", " ++ b ++ " " ++ d

/-- The strftime format `%I:%M %p` on the minutes within a day. -/
def fmtTime12 (mins : Nat) : String :=
  let h := mins / 60
  let m := mins % 60
  let ampm := if h < 12 then "AM" else "PM"
  let h12 := if h % 12 = 0 then 12 else h % 12
  pad2 h12 ++ ":" ++ pad2 m ++ " " ++ ampm

/-! ## JSON payloads, Python exceptions and the HTTP layer -/

/-- A decoded JSON value.  Numeric leaves that the source consumes as
numbers (the `dt` timestamps) are `num`; every other leaf carries its
rendered form as a string, which is how f-string interpolation uses it. -/
inductive JValue where
  | obj (fields : List (String × JValue))
  | arr (elems : List JValue)
  | num (n : Int)
  | str (s : String)

/-- The Python exception classes the embedded code can raise or catch. -/
inductive PyExc where
  | requestException (msg : String)
  | keyError
  | indexError
  | typeError
  | attributeError
deriving DecidableEq, Repr

/-- Python `d[k]` with a string key: field lookup on a dict; `KeyError` if
the key is absent, `TypeError` on a list, number or string. -/
def getKey : JValue → String → Except PyExc JValue
  | .obj fields, k =>
    match fields.find? (fun p => p.1 = k) with
    | some p => .ok p.2
    | none => .error .keyError
  | .arr _, _ => .error .typeError
  | .num _, _ => .error .typeError
  | .str _, _ => .error .typeError

/-- Python `x[i]` with a non-negative integer index: list indexing
(`IndexError` out of range), string indexing (a one-character string),
`KeyError` on a dict without integer keys, `TypeError` on a number. -/
def getIdx : JValue → Nat → Except PyExc JValue
  | .arr elems, i =>
    match elems.get? i with
    | some v => .ok v
    | none => .error .indexError
  | .obj _, _ => .error .keyError
  | .str s, i =>
    match s.data.get? i with
    | some c => .ok (.str (String.mk [c]))
    | none => .error .indexError
  | .num _, _ => .error .typeError

/-- Python iteration `for x in v`: the elements of a list, the characters
of a string, the keys of a dict; `TypeError` on a number. -/
def pyIter : JValue → Except PyExc (List JValue)
  | .arr elems => .ok elems
  | .str s => .ok (s.data.map (fun c => .str (String.mk [c])))
  | .obj fields => .ok (fields.map (fun p => .str p.1))
  | .num _ => .error .typeError

/-- f-string rendering of a JSON leaf (`f"{temp}"` and the like). -/
def pyStr : JValue → String
  | .str s => s
  | .num n => toString n
  | .obj _ => "{...}"
  | .arr _ => "[...]"

/-- `datetime.fromtimestamp` on a payload value: defined on numbers
(seconds since the epoch, split into day and minutes), `TypeError`
otherwise. -/
def fromtimestamp : JValue → Except PyExc PDateTime
  | .num n => .ok ⟨Int.fdiv n 86400, (Int.fmod n 86400).toNat / 60⟩
  | _ => .error .typeError

/-- Python `s.capitalize()` applied to a payload value: only strings have
the method (`AttributeError` otherwise); first character upper-cased, the
rest lower-cased. -/
def pyCapitalize : JValue → Except PyExc String
  | .str s =>
    match s.data with
    | [] => .ok ""
    | c :: cs => .ok (String.mk (c.toUpper :: cs.map Char.toLower))
  | _ => .error .attributeError

/-- One outbound HTTP request: the current-conditions endpoint or the
5-day/3-hour forecast endpoint, keyed by the location string. -/
inductive Request where
  | current (location : String)
  | forecast (location : String)
deriving DecidableEq, Repr

/-- What `requests.get` plus `raise_for_status` plus `response.json()`
produce: a transport-level failure (timeout, DNS, non-2xx status,
undecodable body — all `RequestException`s) or a decoded payload. -/
inductive NetResult where
  | transportError (msg : String)
  | payload (j : JValue)

/-- Truthiness of `os.getenv(...)`: `None` and the empty string are falsy
(the Python test `if not api_key`). -/
def keyTruthy : Option String → Bool
  | none => false
  | some s => pyTruthy s

/-- Turn a raised `KeyError` into the fallback message, as the
`except KeyError:` clause of the source does; every other exception
propagates. -/
def catchKeyError (fallback : String) : Except PyExc String → Except PyExc String
  | .error .keyError => .ok fallback
  | r => r

/-! ## `get_weather` (src/main.py lines 21-66) -/

/-- The `try` body of `get_weather` after the response has decoded to
`data`: the intent-directed field accesses and message formatting. -/
def getWeatherBody (location intent : String) (data : JValue) : Except PyExc String :=
  if intent = "temperature" then do
    let t ← getKey data "main"
    let temp ← getKey t "temp"
    let ts := pyStr temp
    pure s!"The current temperature in {location} is {ts}°F."
  else if intent = "humidity" then do
    let m ← getKey data "main"
    let h ← getKey m "humidity"
    let hs := pyStr h
    pure s!"The current humidity in {location} is {hs}%."
  else if intent = "wind speed" then do
    let w ← getKey data "wind"
    let sp ← getKey w "speed"
    let ss := pyStr sp
    pure s!"The current wind speed in {location} is {ss} mph."
  else if intent = "current weather" then do
    let w ← getKey data "weather"
    let w0 ← getIdx w 0
    let desc ← getKey w0 "description"
    let m ← getKey data "main"
    let temp ← getKey m "temp"
    let ds := pyStr desc
    let ts := pyStr temp
    pure s!"The current weather in {location} is {ds} with a temperature of {ts}°F."
  else if intent = "forecast" then do
    let w ← getKey data "weather"
    let w0 ← getIdx w 0
    let desc ← getKey w0 "description"
    let ds := pyStr desc
    pure s!"The current forecast for {location} is: {ds}."
  else
    pure "I can't provide that information yet."

/-- `get_weather(location, intent, date)`: current-weather fetch.  Returns
the result (a string, or a propagating exception) together with the list
of HTTP requests attempted.  The `date` argument is accepted and unused,
as in the source. -/
def get_weather (location intent : String) (date : PDateTime)
    (apiKey : Option String) (net : Request → NetResult) :
    Except PyExc String × List Request :=
  if !keyTruthy apiKey then
    (.ok "Error: OPENWEATHERMAP_API_KEY not found. Please set it in your .env file.", [])
  else
    match net (.current location) with
    | .transportError e =>
      (.ok s!"Error fetching weather data: {e}", [.current location])
    | .payload data =>
      (catchKeyError
        s!"Could not find weather data for {location}. Please check the location name."
        (getWeatherBody location intent data),
       [.current location])

/-! ## `get_forecast` (src/main.py lines 68-112) -/

/-- The filtering loop of `get_forecast`: keep the entries whose
`fromtimestamp` of the `dt` field falls on the target calendar date; a missing
`dt` key or a non-numeric timestamp raises out of the loop. -/
def filterTarget (date : PDateTime) : List JValue → Except PyExc (List JValue)
  | [] => .ok []
  | f :: rest => do
    let d ← getKey f "dt"
    let fd ← fromtimestamp d
    let tail ← filterTarget date rest
    if fd.day = date.day then pure (f :: tail) else pure tail

/-- One line of the forecast digest:
`"- {12-hour time}: {Capitalized description}, {temp}°F\n"`.
The `.capitalize()` call happens inside the f-string, after the `temp`
lookup of the preceding source line, hence its position here. -/
def renderForecastLine (f : JValue) : Except PyExc String := do
  let d ← getKey f "dt"
  let t ← fromtimestamp d
  let tm := fmtTime12 t.mins
  let w ← getKey f "weather"
  let w0 ← getIdx w 0
  let desc ← getKey w0 "description"
  let m ← getKey f "main"
  let temp ← getKey m "temp"
  let wd ← pyCapitalize desc
  let ts := pyStr temp
  pure s!"- {tm}: {wd}, {ts}°F\n"

/-- The summary loop of `get_forecast`, concatenating one rendered line
per matching entry onto the accumulated summary. -/
def renderForecast : List JValue → Except PyExc String
  | [] => .ok ""
  | f :: rest => do
    let line ← renderForecastLine f
    let tail ← renderForecast rest
    pure (line ++ tail)

/-- The `try` body of `get_forecast` after the response has decoded to
`data`: filter the entries of the `list` field to the target date, then
either the "no forecast data" message or the digest. -/
def getForecastBody (location : String) (date : PDateTime) (data : JValue) :
    Except PyExc String := do
  let forecasts ← getKey data "list"
  let items ← pyIter forecasts
  let target ← filterTarget date items
  if target.isEmpty then
    let ds := fmtYmd date.day
    pure s!"No forecast data available for {location} on {ds}."
  else
    let hd := fmtWeekdayMonthDay date.day
    let body ← renderForecast target
    pure (s!"Forecast for {location} on {hd}:\n" ++ body)

/-- `get_forecast(location, date)`: 5-day forecast fetch, with the same
credential check, transport handling and `KeyError` fallback as
`get_weather`. -/
def get_forecast (location : String) (date : PDateTime)
    (apiKey : Option String) (net : Request → NetResult) :
    Except PyExc String × List Request :=
  if !keyTruthy apiKey then
    (.ok "Error: OPENWEATHERMAP_API_KEY not found. Please set it in your .env file.", [])
  else
    match net (.forecast location) with
    | .transportError e =>
      (.ok s!"Error fetching forecast data: {e}", [.forecast location])
    | .payload data =>
      (catchKeyError
        s!"Could not find forecast data for {location}. Please check the location name."
        (getForecastBody location date data),
       [.forecast location])

/-! ## `process_question` (src/main.py lines 115-171) -/

/-- One recognized entity of the spaCy document: its label (`ent.label_`)
and surface text (`ent.text`). -/
structure Ent where
  label : String
  text : String
deriving DecidableEq, Repr

/-- One noun chunk of the spaCy document: its surface text (`chunk.text`)
and the surface text of the head of its root (`chunk.root.head.text`). -/
structure NounChunk where
  text : String
  rootHeadText : String
deriving DecidableEq, Repr

/-- The spaCy document produced by `nlp(question)`, reduced to the two
streams the source iterates over. -/
structure Doc where
  ents : List Ent
  nounChunks : List NounChunk
deriving DecidableEq, Repr

/-- The first entity labelled `"GPE"`, taken verbatim (the first loop of
`process_question`). -/
def findGPE : List Ent → Option String
  | [] => none
  | e :: rest => if e.label = "GPE" then some e.text else findGPE rest

/-- The first noun chunk whose root-head text contains `"in"` or `"for"`
as a substring (the fallback loop of `process_question`). -/
def findChunkLoc : List NounChunk → Option String
  | [] => none
  | c :: rest =>
    if containsSub c.rootHeadText "in" || containsSub c.rootHeadText "for" then
      some c.text
    else findChunkLoc rest

/-- The location variable after both extraction loops: the first GPE
entity if truthy, otherwise the noun-chunk fallback if it assigned
anything, otherwise whatever the first loop left. -/
def extractLocation (doc : Doc) : Option String :=
  let l1 := findGPE doc.ents
  if optTruthy l1 then l1
  else
    match findChunkLoc doc.nounChunks with
    | some s => some s
    | none => l1

/-- The first entity labelled `"DATE"`, taken verbatim. -/
def findDateEnt : List Ent → Option String
  | [] => none
  | e :: rest => if e.label = "DATE" then some e.text else findDateEnt rest

/-- `date_entity` in `process_question`. -/
def dateEntity (doc : Doc) : Option String :=
  findDateEnt doc.ents

/-- `target_date` after lines 144-148: start from `now`; if the date
entity is truthy, parse it with the future-biased parser and keep the
parse when it succeeds (a `datetime` is always truthy), otherwise keep
`now`. -/
def resolveTarget (doc : Doc) (parse : String → Option PDateTime)
    (now : PDateTime) : PDateTime :=
  match dateEntity doc with
  | none => now
  | some s =>
    if pyTruthy s then
      match parse s with
      | some d => d
      | none => now
    else now

/-- The intent variable after lines 150-159: case-insensitive keyword
search in fixed priority order, the forecast branch also firing when a
truthy date entity resolved to a date after today. -/
def classifyIntent (question : String) (doc : Doc)
    (parse : String → Option PDateTime) (now : PDateTime) : String :=
  let ql := pyLower question
  if containsSub ql "temperature" then "temperature"
  else if containsSub ql "humidity" then "humidity"
  else if containsSub ql "wind" then "wind speed"
  else if containsSub ql "forecast"
      || (optTruthy (dateEntity doc)
          && decide (now.day < (resolveTarget doc parse now).day)) then "forecast"
  else "current weather"

/-- `process_question(question)`: returns the triple the source returns —
either the no-location message with two `None`s, or the location together
with an intent tag and a datetime.  The routing block (lines 161-171)
compares calendar dates: strictly past → `"past_weather"`; future or
forecast intent → the 5-day window check selects `"future_weather_limit"`
or `"forecast"`; otherwise the measurement intent with `now`. -/
def process_question (question : String) (doc : Doc)
    (parse : String → Option PDateTime) (now : PDateTime) :
    String × Option String × Option PDateTime :=
  let location := extractLocation doc
  if !optTruthy location then
    ("Could not determine the location from your question.", none, none)
  else
    let loc := location.getD ""
    let target := resolveTarget doc parse now
    let intent := classifyIntent question doc parse now
    if target.day < now.day then
      (loc, some "past_weather", some target)
    else if target.day > now.day ∨ intent = "forecast" then
      if target.day > (addDays now 5).day then
        (loc, some "future_weather_limit", some target)
      else
        (loc, some "forecast", some target)
    else
      (loc, some intent, some now)

/-! ## `get_weather_response` (src/main.py lines 174-198) -/

/-- Which branch of the if-chain of `get_weather_response` fires on the triple
returned by `process_question`, and with which arguments. -/
inductive Dispatch where
  | past
  | limit (date : PDateTime)
  | fetchForecast (location : String) (date : PDateTime)
  | fetchWeather (location : String) (intent : String) (date : PDateTime)
  | locationOnly
  | nothingUnderstood
deriving DecidableEq, Repr

/-- The branch selection of `get_weather_response`, in source order:
the two policy tags first, then `if location and intent` splitting on the
forecast tag, then the two apology branches.  (On the branches that read
`date` the source value is provably present; `Option.getD` supplies a
dummy for the type-checker only.) -/
def dispatchOf (question : String) (doc : Doc)
    (parse : String → Option PDateTime) (now : PDateTime) : Dispatch :=
  let r := process_question question doc parse now
  let location := r.1
  let intent := r.2.1
  let date := r.2.2
  if intent = some "past_weather" then .past
  else if intent = some "future_weather_limit" then .limit (date.getD ⟨0, 0⟩)
  else if pyTruthy location && optTruthy intent then
    if intent = some "forecast" then .fetchForecast location (date.getD ⟨0, 0⟩)
    else .fetchWeather location (intent.getD "") (date.getD ⟨0, 0⟩)
  else if pyTruthy location then .locationOnly
  else .nothingUnderstood

/-- `get_weather_response(question)`: the entry point.  Returns the final
string (or a propagating exception) and the list of HTTP requests made. -/
def get_weather_response (question : String) (doc : Doc)
    (parse : String → Option PDateTime) (now : PDateTime)
    (apiKey : Option String) (net : Request → NetResult) :
    Except PyExc String × List Request :=
  match dispatchOf question doc parse now with
  | .past =>
    (.ok "I'm sorry, but I cannot retrieve historical weather data with the current plan.", [])
  | .limit d =>
    let ds := fmtYmd d.day
    (.ok s!"I can only provide a 5-day forecast. {ds} is too far in the future.", [])
  | .fetchForecast loc d => get_forecast loc d apiKey net
  | .fetchWeather loc i d => get_weather loc i d apiKey net
  | .locationOnly =>
    (.ok "Sorry, I could understand the location but not the rest of your question. Please try again.", [])
  | .nothingUnderstood =>
    (.ok "Sorry, I couldn't understand your question. Please try again.", [])

/-! ## Generic lemmas about the embedded definitions -/

theorem except_bind_ok {α β : Type} (a : α) (f : α → Except PyExc β) :
    (Except.ok a >>= f) = f a := rfl

theorem except_bind_error {α β : Type} (e : PyExc) (f : α → Except PyExc β) :
    ((Except.error e : Except PyExc α) >>= f) = Except.error e := rfl

theorem toString_of_string (s : String) : toString s = s := rfl

theorem optTruthy_getD {o : Option String} (h : optTruthy o = true) :
    pyTruthy (o.getD "") = true := by
  cases o with
  | none => simp [optTruthy] at h
  | some s => exact h

/-- When the date entity is absent or empty, the resolver leaves `now`
untouched. -/
theorem resolveTarget_of_falsy_date (doc : Doc) (parse : String → Option PDateTime)
    (now : PDateTime) (h : optTruthy (dateEntity doc) = false) :
    resolveTarget doc parse now = now := by
  unfold resolveTarget
  cases hd : dateEntity doc with
  | none => rfl
  | some s =>
    rw [hd] at h
    simp only [optTruthy] at h
    simp [h]

/-- The no-location exit of `process_question` (lines 134-135). -/
theorem pq_no_location (q : String) (doc : Doc) (parse : String → Option PDateTime)
    (now : PDateTime) (h : optTruthy (extractLocation doc) = false) :
    process_question q doc parse now
      = ("Could not determine the location from your question.", none, none) := by
  unfold process_question
  simp [h]

/-- The strictly-past branch of the router (lines 163-164). -/
theorem pq_past (q : String) (doc : Doc) (parse : String → Option PDateTime)
    (now : PDateTime)
    (hloc : optTruthy (extractLocation doc) = true)
    (hpast : (resolveTarget doc parse now).day < now.day) :
    process_question q doc parse now
      = ((extractLocation doc).getD "", some "past_weather",
         some (resolveTarget doc parse now)) := by
  unfold process_question
  simp [hloc, hpast]

/-- The over-horizon branch of the router (lines 167-168). -/
theorem pq_limit (q : String) (doc : Doc) (parse : String → Option PDateTime)
    (now : PDateTime)
    (hloc : optTruthy (extractLocation doc) = true)
    (hpast : ¬ (resolveTarget doc parse now).day < now.day)
    (hbr : (resolveTarget doc parse now).day > now.day
           ∨ classifyIntent q doc parse now = "forecast")
    (hlim : (resolveTarget doc parse now).day > now.day + 5) :
    process_question q doc parse now
      = ((extractLocation doc).getD "", some "future_weather_limit",
         some (resolveTarget doc parse now)) := by
  unfold process_question
  have ha : (addDays now 5).day = now.day + 5 := rfl
  simp [hloc, hpast, hbr, ha, hlim]

/-- The in-range forecast branch of the router (line 169). -/
theorem pq_forecast (q : String) (doc : Doc) (parse : String → Option PDateTime)
    (now : PDateTime)
    (hloc : optTruthy (extractLocation doc) = true)
    (hpast : ¬ (resolveTarget doc parse now).day < now.day)
    (hbr : (resolveTarget doc parse now).day > now.day
           ∨ classifyIntent q doc parse now = "forecast")
    (hlim : ¬ (resolveTarget doc parse now).day > now.day + 5) :
    process_question q doc parse now
      = ((extractLocation doc).getD "", some "forecast",
         some (resolveTarget doc parse now)) := by
  unfold process_question
  have ha : (addDays now 5).day = now.day + 5 := rfl
  simp [hloc, hpast, hbr, ha, hlim]

/-- The same-day measurement branch of the router (line 171): the
classified intent is passed through, together with `now` itself. -/
theorem pq_current (q : String) (doc : Doc) (parse : String → Option PDateTime)
    (now : PDateTime)
    (hloc : optTruthy (extractLocation doc) = true)
    (hpast : ¬ (resolveTarget doc parse now).day < now.day)
    (hbr : ¬ ((resolveTarget doc parse now).day > now.day
              ∨ classifyIntent q doc parse now = "forecast")) :
    process_question q doc parse now
      = ((extractLocation doc).getD "", some (classifyIntent q doc parse now),
         some now) := by
  unfold process_question
  simp [hloc, hpast, hbr]

/-- The classified intent is always one of the five source literals. -/
theorem classifyIntent_mem (q : String) (doc : Doc)
    (parse : String → Option PDateTime) (now : PDateTime) :
    classifyIntent q doc parse now = "temperature"
    ∨ classifyIntent q doc parse now = "humidity"
    ∨ classifyIntent q doc parse now = "wind speed"
    ∨ classifyIntent q doc parse now = "forecast"
    ∨ classifyIntent q doc parse now = "current weather" := by
  simp only [classifyIntent]
  split_ifs <;> simp

/-! ## Concrete fixtures used by witnesses and counterexamples -/

/-- A document recognizing `"London"` as a geo-political entity. -/
def docLondon : Doc := ⟨[⟨"GPE", "London"⟩], []⟩

/-- A document with no entities and no noun chunks at all. -/
def docEmpty : Doc := ⟨[], []⟩

/-- A document recognizing `"London"` and a date expression. -/
def docLondonDate : Doc := ⟨[⟨"GPE", "London"⟩, ⟨"DATE", "yesterday"⟩], []⟩

/-- A date-parser stub that fails on every expression. -/
def parseNone : String → Option PDateTime := fun _ => none

/-- A date-parser stub that resolves every expression to `t`. -/
def parseTo (t : PDateTime) : String → Option PDateTime := fun _ => some t

/-- A reference time: day 20000 since the epoch (2024-10-04), 10:00. -/
def now0 : PDateTime := ⟨20000, 600⟩

/-- An HTTP stub returning a decoded payload with an empty `weather`
list and a `main.temp` field. -/
def netEmptyWeather : Request → NetResult :=
  fun _ => .payload (.obj [("weather", .arr []), ("main", .obj [("temp", .num 72)])])

/-! ## The claims -/

/-- Claim C1: the claim states that on a question from which no location can
be extracted, the entry point returns exactly
`"Could not determine the location from your question."` and makes no
network call.  The code disagrees with itself here: `process_question`
builds exactly that message (line 135), but it returns it in the
*location* slot of its triple with `intent = None`, so the dispatch in
`get_weather_response` sees a truthy location and a falsy intent and
returns the generic `"Sorry, I could understand the location but not the
rest of your question. Please try again."` instead — a message that is
self-contradictory on this path.  This theorem evaluates the pipeline at
the failing input: no entities at all, no API key needed, and shows the
divergence (the "no network call" half of the claim does hold: the trace
is empty). -/
theorem C1_no_location_reply :
    optTruthy (extractLocation docEmpty) = false
    ∧ get_weather_response "How is it going today?" docEmpty parseNone now0 none
        netEmptyWeather
      = (.ok "Sorry, I could understand the location but not the rest of your question. Please try again.", [])
    ∧ (get_weather_response "How is it going today?" docEmpty parseNone now0 none
        netEmptyWeather).1
      ≠ .ok "Could not determine the location from your question." := by
  refine ⟨rfl, rfl, fun h => ?_⟩
  have h2 : "Sorry, I could understand the location but not the rest of your question. Please try again."
      = "Could not determine the location from your question." := Except.ok.inj h
  simp at h2

/-- Claim C3, counterexample: the claim says non-empty location, target date
equal to today, and the keyword `"forecast"` present in the question imply
the `Forecast` outcome.  It is false as stated: the keyword search runs in
priority order and `"temperature"` wins over `"forecast"`, so the question
`"What is the temperature forecast for London?"` — same-day, location
found, `"forecast"` present — routes to the same-day measurement branch
with intent `"temperature"`, not to the forecast branch. -/
theorem C3_counterexample :
    optTruthy (extractLocation docLondon) = true
    ∧ (resolveTarget docLondon parseNone now0).day = now0.day
    ∧ containsSub (pyLower "What is the temperature forecast for London?") "forecast" = true
    ∧ (process_question "What is the temperature forecast for London?" docLondon parseNone now0).2.1
      ≠ some "forecast"
    ∧ (process_question "What is the temperature forecast for London?" docLondon parseNone now0).2.1
      = some "temperature" := by
  refine ⟨rfl, rfl, by decide, by decide, rfl⟩

/-- Claim C3, amended: for every query with a non-empty location whose
resolved target date equals today and whose text contains the keyword
`"forecast"` but none of the higher-priority keywords `"temperature"`,
`"humidity"`, `"wind"`, the router produces the forecast outcome, not the
same-day measurement outcome, even though the date equals today. -/
theorem C3_same_day_forecast_keyword (q : String) (doc : Doc)
    (parse : String → Option PDateTime) (now : PDateTime)
    (hloc : optTruthy (extractLocation doc) = true)
    (hday : (resolveTarget doc parse now).day = now.day)
    (hf : containsSub (pyLower q) "forecast" = true)
    (ht : containsSub (pyLower q) "temperature" = false)
    (hh : containsSub (pyLower q) "humidity" = false)
    (hw : containsSub (pyLower q) "wind" = false) :
    (process_question q doc parse now).2.1 = some "forecast" := by
  have hint : classifyIntent q doc parse now = "forecast" := by
    simp only [classifyIntent]
    simp [ht, hh, hw, hf]
  have hpast : ¬ (resolveTarget doc parse now).day < now.day := by omega
  have hbr : (resolveTarget doc parse now).day > now.day
      ∨ classifyIntent q doc parse now = "forecast" := Or.inr hint
  have hlim : ¬ (resolveTarget doc parse now).day > now.day + 5 := by omega
  rw [pq_forecast q doc parse now hloc hpast hbr hlim]

/-- Witness for C3 (amended): a same-day forecast question about London
with no higher-priority keyword routes to `"forecast"`. -/
theorem C3_same_day_forecast_keyword_witness :
    (process_question "Forecast for London today?" docLondon parseNone now0).2.1
      = some "forecast" :=
  C3_same_day_forecast_keyword "Forecast for London today?" docLondon parseNone now0
    rfl rfl (by decide) (by decide) (by decide) (by decide)

/-- Claim C4: for every query with a non-empty location: a resolved target
date of exactly today + 5 days routes to the in-range forecast outcome,
and a resolved target date of today + 6 days or more routes to the
over-horizon outcome carrying that date. -/
theorem C4_forecast_horizon_boundary (q : String) (doc : Doc)
    (parse : String → Option PDateTime) (now : PDateTime)
    (hloc : optTruthy (extractLocation doc) = true) :
    ((resolveTarget doc parse now).day = now.day + 5 →
      (process_question q doc parse now).2.1 = some "forecast")
    ∧ ((resolveTarget doc parse now).day ≥ now.day + 6 →
      process_question q doc parse now
        = ((extractLocation doc).getD "", some "future_weather_limit",
           some (resolveTarget doc parse now))) := by
  constructor
  · intro hday
    have hpast : ¬ (resolveTarget doc parse now).day < now.day := by omega
    have hbr : (resolveTarget doc parse now).day > now.day
        ∨ classifyIntent q doc parse now = "forecast" := Or.inl (by omega)
    have hlim : ¬ (resolveTarget doc parse now).day > now.day + 5 := by omega
    rw [pq_forecast q doc parse now hloc hpast hbr hlim]
  · intro hday
    have hpast : ¬ (resolveTarget doc parse now).day < now.day := by omega
    have hbr : (resolveTarget doc parse now).day > now.day
        ∨ classifyIntent q doc parse now = "forecast" := Or.inl (by omega)
    have hlim : (resolveTarget doc parse now).day > now.day + 5 := by omega
    exact pq_limit q doc parse now hloc hpast hbr hlim

/-- Witness for C4: with today = day 20000, a date resolving to day 20005
yields the forecast route and one resolving to day 20006 yields the
over-horizon route carrying that date. -/
theorem C4_forecast_horizon_boundary_witness :
    (process_question "Weather in London on Friday" docLondonDate
        (parseTo ⟨20005, 300⟩) now0).2.1 = some "forecast"
    ∧ process_question "Weather in London on Friday" docLondonDate
        (parseTo ⟨20006, 300⟩) now0
      = ("London", some "future_weather_limit", some ⟨20006, 300⟩) :=
  ⟨(C4_forecast_horizon_boundary "Weather in London on Friday" docLondonDate
      (parseTo ⟨20005, 300⟩) now0 rfl).1 (by decide),
   (C4_forecast_horizon_boundary "Weather in London on Friday" docLondonDate
      (parseTo ⟨20006, 300⟩) now0 rfl).2 (by decide)⟩

/-- Claim C5: for every query with a non-empty location whose resolved
target date is strictly before today, the router produces the past-weather
outcome — regardless of any `"forecast"` keyword, since this check comes
first — and the entry point returns the fixed apology string with an empty
request trace (no network call), for every API-key configuration and
network behavior. -/
theorem C5_past_weather (q : String) (doc : Doc)
    (parse : String → Option PDateTime) (now : PDateTime)
    (apiKey : Option String) (net : Request → NetResult)
    (hloc : optTruthy (extractLocation doc) = true)
    (hpast : (resolveTarget doc parse now).day < now.day) :
    (process_question q doc parse now).2.1 = some "past_weather"
    ∧ get_weather_response q doc parse now apiKey net
      = (.ok "I'm sorry, but I cannot retrieve historical weather data with the current plan.", []) := by
  have hpq := pq_past q doc parse now hloc hpast
  have hd : dispatchOf q doc parse now = .past := by
    unfold dispatchOf
    rw [hpq]
    simp
  constructor
  · rw [hpq]
  · unfold get_weather_response
    rw [hd]

/-- Witness for C5: "what was the weather in London yesterday", with the
date resolving one day back, routes to the past-weather apology and an
empty request trace. -/
theorem C5_past_weather_witness :
    (process_question "What was the weather in London yesterday?" docLondonDate
        (parseTo ⟨19999, 600⟩) now0).2.1 = some "past_weather"
    ∧ get_weather_response "What was the weather in London yesterday?" docLondonDate
        (parseTo ⟨19999, 600⟩) now0 (some "k") netEmptyWeather
      = (.ok "I'm sorry, but I cannot retrieve historical weather data with the current plan.", []) :=
  C5_past_weather "What was the weather in London yesterday?" docLondonDate
    (parseTo ⟨19999, 600⟩) now0 (some "k") netEmptyWeather rfl (by decide)

/-- Claim C6: intent classification is a case-insensitive substring search
in fixed priority order — temperature, then humidity, then wind, then
(forecast keyword or resolved date strictly after today) — defaulting to
current weather; the first matching priority governs even when several
keywords appear (each implication below quantifies over arbitrary
question text, so lower-priority keywords may be present).  The
future-date disjunct is stated as the spec states it (date strictly after
today): the source additionally tests that a date entity is present, but
a later resolved date can only come from a truthy date entity, so the two
conditions agree. -/
theorem C6_intent_priority (q : String) (doc : Doc)
    (parse : String → Option PDateTime) (now : PDateTime) :
    (containsSub (pyLower q) "temperature" = true →
      classifyIntent q doc parse now = "temperature")
    ∧ (containsSub (pyLower q) "temperature" = false →
       containsSub (pyLower q) "humidity" = true →
      classifyIntent q doc parse now = "humidity")
    ∧ (containsSub (pyLower q) "temperature" = false →
       containsSub (pyLower q) "humidity" = false →
       containsSub (pyLower q) "wind" = true →
      classifyIntent q doc parse now = "wind speed")
    ∧ (containsSub (pyLower q) "temperature" = false →
       containsSub (pyLower q) "humidity" = false →
       containsSub (pyLower q) "wind" = false →
       (containsSub (pyLower q) "forecast" = true
        ∨ now.day < (resolveTarget doc parse now).day) →
      classifyIntent q doc parse now = "forecast")
    ∧ (containsSub (pyLower q) "temperature" = false →
       containsSub (pyLower q) "humidity" = false →
       containsSub (pyLower q) "wind" = false →
       containsSub (pyLower q) "forecast" = false →
       ¬ now.day < (resolveTarget doc parse now).day →
      classifyIntent q doc parse now = "current weather") := by
  refine ⟨fun ht => ?_, fun ht hh => ?_, fun ht hh hw => ?_,
    fun ht hh hw hor => ?_, fun ht hh hw hf hd => ?_⟩
  · simp only [classifyIntent]; simp [ht]
  · simp only [classifyIntent]; simp [ht, hh]
  · simp only [classifyIntent]; simp [ht, hh, hw]
  · rcases hor with hf | hfut
    · simp only [classifyIntent]; simp [ht, hh, hw, hf]
    · have he : optTruthy (dateEntity doc) = true := by
        by_contra h
        have h0 : optTruthy (dateEntity doc) = false := by
          cases h1 : optTruthy (dateEntity doc) with
          | true => exact absurd h1 h
          | false => rfl
        rw [resolveTarget_of_falsy_date doc parse now h0] at hfut
        omega
      simp only [classifyIntent]
      simp [ht, hh, hw, he, hfut]
  · simp only [classifyIntent]; simp [ht, hh, hw, hf, hd]

/-- Witness for C6: four concrete classifications — `"temperature"` wins
over a later `"forecast"`; `"wind"` fires when no higher keyword occurs;
a future resolved date forces `"forecast"` with no keyword at all; and
with no keyword and a same-day date the default is `"current weather"`. -/
theorem C6_intent_priority_witness :
    classifyIntent "Temperature and wind forecast for London?" docLondon parseNone now0
      = "temperature"
    ∧ classifyIntent "Will the wind pick up in London?" docLondon parseNone now0
      = "wind speed"
    ∧ classifyIntent "How will it be in London tomorrow?" docLondonDate
        (parseTo ⟨20001, 600⟩) now0 = "forecast"
    ∧ classifyIntent "How is the sky in London?" docLondon parseNone now0
      = "current weather" :=
  ⟨(C6_intent_priority "Temperature and wind forecast for London?" docLondon
      parseNone now0).1 (by decide),
   (C6_intent_priority "Will the wind pick up in London?" docLondon
      parseNone now0).2.2.1 (by decide) (by decide) (by decide),
   (C6_intent_priority "How will it be in London tomorrow?" docLondonDate
      (parseTo ⟨20001, 600⟩) now0).2.2.2.1 (by decide) (by decide) (by decide)
     (Or.inr (by decide)),
   (C6_intent_priority "How is the sky in London?" docLondon
      parseNone now0).2.2.2.2 (by decide) (by decide) (by decide) (by decide)
     (by decide)⟩

/-- Claim C7: if the date expression is absent the resolved date is the
calendar date of `now`, and if it is present but the future-biased parser
fails on it, the resolver silently falls back to the date of `now` instead of
failing the query (`resolveTarget` is total). -/
theorem C7_date_fallback (doc : Doc) (parse : String → Option PDateTime)
    (now : PDateTime) :
    (dateEntity doc = none → (resolveTarget doc parse now).day = now.day)
    ∧ (∀ s, dateEntity doc = some s → parse s = none →
        (resolveTarget doc parse now).day = now.day) := by
  constructor
  · intro h
    unfold resolveTarget
    rw [h]
  · intro s h hp
    unfold resolveTarget
    rw [h]
    by_cases hs : pyTruthy s = true
    · simp [hs, hp]
    · simp at hs
      simp [hs]

/-- Witness for C7: a document without any date entity resolves to `now`,
and a document whose date entity the parser rejects also resolves to
`now`. -/
theorem C7_date_fallback_witness :
    (resolveTarget docLondon parseNone now0).day = now0.day
    ∧ (resolveTarget docLondonDate parseNone now0).day = now0.day :=
  ⟨(C7_date_fallback docLondon parseNone now0).1 rfl,
   (C7_date_fallback docLondonDate parseNone now0).2 "yesterday" rfl rfl⟩

/-- Claim C8: with the API key unset, both fetch functions return the
missing-credential error string immediately and the request trace is
empty: no network request is attempted, whatever the network would have
answered. -/
theorem C8_missing_credential (location intent : String) (date : PDateTime)
    (net : Request → NetResult) :
    get_weather location intent date none net
      = (.ok "Error: OPENWEATHERMAP_API_KEY not found. Please set it in your .env file.", [])
    ∧ get_forecast location date none net
      = (.ok "Error: OPENWEATHERMAP_API_KEY not found. Please set it in your .env file.", []) :=
  ⟨rfl, rfl⟩

/-- Claim C9: when the forecast fetch succeeds (key configured, network
delivers a payload whose `list` field decodes and iterates) but filtering
the entries to the target calendar date leaves nothing, `get_forecast`
returns exactly `"No forecast data available for {location} on {date}."`
with the date rendered year-month-day — not an empty digest and not an
error — after having made the one forecast request. -/
theorem C9_empty_forecast_day (location : String) (date : PDateTime)
    (apiKey : Option String) (net : Request → NetResult)
    (j l : JValue) (items : List JValue)
    (hkey : keyTruthy apiKey = true)
    (hnet : net (.forecast location) = .payload j)
    (hlist : getKey j "list" = .ok l)
    (hiter : pyIter l = .ok items)
    (hfilter : filterTarget date items = .ok []) :
    get_forecast location date apiKey net
      = (.ok ("No forecast data available for " ++ location ++ " on "
              ++ fmtYmd date.day ++ "."),
         [.forecast location]) := by
  have hbody : getForecastBody location date j
      = .ok ("No forecast data available for " ++ location ++ " on "
             ++ fmtYmd date.day ++ ".") := by
    unfold getForecastBody
    simp only [hlist, except_bind_ok, hiter, hfilter]
    simp [pure, Except.pure, toString_of_string, String.append_assoc]
  unfold get_forecast
  rw [hkey]
  simp only [Bool.not_true, hnet]
  simp [catchKeyError, hbody]

/-- Witness for C9: a payload whose `list` is empty yields the
no-forecast-data message for day 20745 (2026-10-19), with exactly one
forecast request in the trace. -/
theorem C9_empty_forecast_day_witness :
    get_forecast "Tokyo" ⟨20745, 0⟩ (some "k")
        (fun _ => .payload (.obj [("list", .arr [])]))
      = (.ok "No forecast data available for Tokyo on 2026-10-19.",
         [.forecast "Tokyo"]) := by
  have h := C9_empty_forecast_day "Tokyo" ⟨20745, 0⟩ (some "k")
    (fun _ => .payload (.obj [("list", .arr [])]))
    (.obj [("list", .arr [])]) (.arr []) [] rfl rfl rfl rfl rfl
  rw [h]
  rfl

/-- Claim C10: invariant of the dispatch stage: whenever the branch
selection of the entry point hands a query to `get_weather`, the intent argument is
one of the four measurement tags `"temperature"`, `"humidity"`,
`"wind speed"`, `"current weather"` — never `"forecast"` (which dispatches
to `get_forecast`) and never anything else, so the `"forecast"` branch and
the trailing `"I can't provide that information yet."` fallback inside
`get_weather` are unreachable through `get_weather_response`. -/
theorem C10_fetch_weather_intents (q : String) (doc : Doc)
    (parse : String → Option PDateTime) (now : PDateTime)
    (loc i : String) (d : PDateTime)
    (h : dispatchOf q doc parse now = .fetchWeather loc i d) :
    i = "temperature" ∨ i = "humidity" ∨ i = "wind speed"
    ∨ i = "current weather" := by
  cases hloc : optTruthy (extractLocation doc) with
  | false =>
    have hpq := pq_no_location q doc parse now hloc
    unfold dispatchOf at h
    rw [hpq] at h
    simp [pyTruthy, optTruthy] at h
  | true =>
    have hne : (extractLocation doc).getD "" ≠ "" := by
      have hpt := optTruthy_getD hloc
      simpa [pyTruthy] using hpt
    by_cases hpast : (resolveTarget doc parse now).day < now.day
    · have hpq := pq_past q doc parse now hloc hpast
      unfold dispatchOf at h
      rw [hpq] at h
      simp at h
    · by_cases hbr : (resolveTarget doc parse now).day > now.day
          ∨ classifyIntent q doc parse now = "forecast"
      · by_cases hlim : (resolveTarget doc parse now).day > now.day + 5
        · have hpq := pq_limit q doc parse now hloc hpast hbr hlim
          unfold dispatchOf at h
          rw [hpq] at h
          simp at h
        · have hpq := pq_forecast q doc parse now hloc hpast hbr hlim
          unfold dispatchOf at h
          rw [hpq] at h
          simp [optTruthy, pyTruthy, hne] at h
      · have hpq := pq_current q doc parse now hloc hpast hbr
        have hnf : classifyIntent q doc parse now ≠ "forecast" :=
          fun hc => hbr (Or.inr hc)
        unfold dispatchOf at h
        rw [hpq] at h
        rcases classifyIntent_mem q doc parse now with hc | hc | hc | hc | hc
        · rw [hc] at h
          simp [optTruthy, pyTruthy, hne] at h
          exact Or.inl h.2.1.symm
        · rw [hc] at h
          simp [optTruthy, pyTruthy, hne] at h
          exact Or.inr (Or.inl h.2.1.symm)
        · rw [hc] at h
          simp [optTruthy, pyTruthy, hne] at h
          exact Or.inr (Or.inr (Or.inl h.2.1.symm))
        · exact absurd hc hnf
        · rw [hc] at h
          simp [optTruthy, pyTruthy, hne] at h
          exact Or.inr (Or.inr (Or.inr h.2.1.symm))

/-- Witness for C10: a plain current-weather question dispatches to
`get_weather` with the intent `"current weather"`, which is one of the
four measurement tags. -/
theorem C10_fetch_weather_intents_witness :
    dispatchOf "What is the weather in London?" docLondon parseNone now0
      = .fetchWeather "London" "current weather" now0
    ∧ ("current weather" = "temperature" ∨ "current weather" = "humidity"
       ∨ "current weather" = "wind speed"
       ∨ "current weather" = "current weather") :=
  ⟨by decide,
   C10_fetch_weather_intents "What is the weather in London?" docLondon parseNone
     now0 "London" "current weather" now0 (by decide)⟩

/-! ## Exception discipline of the entry point (claim C2)

The source catches `requests.exceptions.RequestException` (modelled as the
`transportError` outcome of the network) and `KeyError`; nothing catches
`IndexError`, `TypeError` or `AttributeError`, which indexing and method
calls on an unexpectedly-shaped payload can raise.  The lemmas below track
which exception classes each computation can produce. -/

/-- The payload-shape exceptions that no `except` clause of the source
catches. -/
def shapeErr (e : PyExc) : Prop :=
  e = .indexError ∨ e = .typeError ∨ e = .attributeError

/-- What a `try` body can raise: `KeyError` (caught) or a shape error
(uncaught).  In particular never a `RequestException`. -/
def bodyErr (e : PyExc) : Prop := e = .keyError ∨ shapeErr e

/-- Every exception of the computation is a possible body exception. -/
def BodyOk {α : Type} (r : Except PyExc α) : Prop :=
  ∀ e, r = .error e → bodyErr e

/-- Every exception of the computation is an uncaught shape exception. -/
def ShapeOk {α : Type} (r : Except PyExc α) : Prop :=
  ∀ e, r = .error e → shapeErr e

theorem bodyOk_ok {α : Type} (a : α) : BodyOk (Except.ok a : Except PyExc α) :=
  fun _ he => Except.noConfusion he

theorem bodyOk_keyError {α : Type} :
    BodyOk (Except.error .keyError : Except PyExc α) := by
  intro e he
  have h2 := Except.error.inj he
  exact Or.inl h2.symm

theorem bodyOk_indexError {α : Type} :
    BodyOk (Except.error .indexError : Except PyExc α) := by
  intro e he
  have h2 := Except.error.inj he
  exact Or.inr (Or.inl h2.symm)

theorem bodyOk_typeError {α : Type} :
    BodyOk (Except.error .typeError : Except PyExc α) := by
  intro e he
  have h2 := Except.error.inj he
  exact Or.inr (Or.inr (Or.inl h2.symm))

theorem bodyOk_attributeError {α : Type} :
    BodyOk (Except.error .attributeError : Except PyExc α) := by
  intro e he
  have h2 := Except.error.inj he
  exact Or.inr (Or.inr (Or.inr h2.symm))

theorem bodyOk_bind {α β : Type} {x : Except PyExc α} {f : α → Except PyExc β}
    (hx : BodyOk x) (hf : ∀ a, BodyOk (f a)) : BodyOk (x >>= f) := by
  intro e he
  cases x with
  | error e2 =>
    rw [except_bind_error] at he
    have h2 : e2 = e := Except.error.inj he
    subst h2
    exact hx e2 rfl
  | ok a =>
    rw [except_bind_ok] at he
    exact hf a e he

theorem bodyOk_getKey (j : JValue) (k : String) : BodyOk (getKey j k) := by
  unfold getKey
  split
  · split
    · exact bodyOk_ok _
    · exact bodyOk_keyError
  · exact bodyOk_typeError
  · exact bodyOk_typeError
  · exact bodyOk_typeError

theorem bodyOk_getIdx (j : JValue) (i : Nat) : BodyOk (getIdx j i) := by
  unfold getIdx
  split
  · split
    · exact bodyOk_ok _
    · exact bodyOk_indexError
  · exact bodyOk_keyError
  · split
    · exact bodyOk_ok _
    · exact bodyOk_indexError
  · exact bodyOk_typeError

theorem bodyOk_pyIter (j : JValue) : BodyOk (pyIter j) := by
  unfold pyIter
  split
  · exact bodyOk_ok _
  · exact bodyOk_ok _
  · exact bodyOk_ok _
  · exact bodyOk_typeError

theorem bodyOk_fromtimestamp (j : JValue) : BodyOk (fromtimestamp j) := by
  unfold fromtimestamp
  split
  · exact bodyOk_ok _
  · exact bodyOk_typeError

theorem bodyOk_pyCapitalize (j : JValue) : BodyOk (pyCapitalize j) := by
  unfold pyCapitalize
  split
  · split
    · exact bodyOk_ok _
    · exact bodyOk_ok _
  · exact bodyOk_attributeError

theorem bodyOk_getWeatherBody (location intent : String) (data : JValue) :
    BodyOk (getWeatherBody location intent data) := by
  unfold getWeatherBody
  split_ifs
  · exact bodyOk_bind (bodyOk_getKey _ _) fun t =>
      bodyOk_bind (bodyOk_getKey _ _) fun temp => bodyOk_ok _
  · exact bodyOk_bind (bodyOk_getKey _ _) fun m =>
      bodyOk_bind (bodyOk_getKey _ _) fun h => bodyOk_ok _
  · exact bodyOk_bind (bodyOk_getKey _ _) fun w =>
      bodyOk_bind (bodyOk_getKey _ _) fun sp => bodyOk_ok _
  · exact bodyOk_bind (bodyOk_getKey _ _) fun w =>
      bodyOk_bind (bodyOk_getIdx _ _) fun w0 =>
      bodyOk_bind (bodyOk_getKey _ _) fun desc =>
      bodyOk_bind (bodyOk_getKey _ _) fun m =>
      bodyOk_bind (bodyOk_getKey _ _) fun temp => bodyOk_ok _
  · exact bodyOk_bind (bodyOk_getKey _ _) fun w =>
      bodyOk_bind (bodyOk_getIdx _ _) fun w0 =>
      bodyOk_bind (bodyOk_getKey _ _) fun desc => bodyOk_ok _
  · exact bodyOk_ok _

theorem bodyOk_filterTarget (date : PDateTime) (l : List JValue) :
    BodyOk (filterTarget date l) := by
  induction l with
  | nil => exact bodyOk_ok _
  | cons f rest ih =>
    simp only [filterTarget]
    refine bodyOk_bind (bodyOk_getKey _ _) fun d => ?_
    refine bodyOk_bind (bodyOk_fromtimestamp _) fun fd => ?_
    refine bodyOk_bind ih fun tail => ?_
    split
    · exact bodyOk_ok _
    · exact bodyOk_ok _

theorem bodyOk_renderForecastLine (f : JValue) :
    BodyOk (renderForecastLine f) := by
  unfold renderForecastLine
  refine bodyOk_bind (bodyOk_getKey _ _) fun d => ?_
  refine bodyOk_bind (bodyOk_fromtimestamp _) fun t => ?_
  refine bodyOk_bind (bodyOk_getKey _ _) fun w => ?_
  refine bodyOk_bind (bodyOk_getIdx _ _) fun w0 => ?_
  refine bodyOk_bind (bodyOk_getKey _ _) fun desc => ?_
  refine bodyOk_bind (bodyOk_getKey _ _) fun m => ?_
  refine bodyOk_bind (bodyOk_getKey _ _) fun temp => ?_
  exact bodyOk_bind (bodyOk_pyCapitalize _) fun wd => bodyOk_ok _

theorem bodyOk_renderForecast (l : List JValue) : BodyOk (renderForecast l) := by
  induction l with
  | nil => exact bodyOk_ok _
  | cons f rest ih =>
    simp only [renderForecast]
    refine bodyOk_bind (bodyOk_renderForecastLine _) fun line => ?_
    exact bodyOk_bind ih fun tail => bodyOk_ok _

theorem bodyOk_getForecastBody (location : String) (date : PDateTime)
    (data : JValue) : BodyOk (getForecastBody location date data) := by
  unfold getForecastBody
  refine bodyOk_bind (bodyOk_getKey _ _) fun forecasts => ?_
  refine bodyOk_bind (bodyOk_pyIter _) fun items => ?_
  refine bodyOk_bind (bodyOk_filterTarget _ _) fun target => ?_
  split
  · exact bodyOk_ok _
  · exact bodyOk_bind (bodyOk_renderForecast _) fun body => bodyOk_ok _

/-- The `except KeyError` clause turns every `KeyError` into the fallback
string, so only shape exceptions survive it. -/
theorem shapeOk_catchKeyError (fb : String) {r : Except PyExc String}
    (h : BodyOk r) : ShapeOk (catchKeyError fb r) := by
  intro e he
  cases r with
  | ok a => simp [catchKeyError] at he
  | error e2 =>
    have hb := h e2 rfl
    cases e2 with
    | keyError => simp [catchKeyError] at he
    | requestException m =>
      rcases hb with h3 | h3 | h3 | h3
      · exact PyExc.noConfusion h3
      · exact PyExc.noConfusion h3
      · exact PyExc.noConfusion h3
      · exact PyExc.noConfusion h3
    | indexError =>
      simp [catchKeyError] at he
      subst he
      exact Or.inl rfl
    | typeError =>
      simp [catchKeyError] at he
      subst he
      exact Or.inr (Or.inl rfl)
    | attributeError =>
      simp [catchKeyError] at he
      subst he
      exact Or.inr (Or.inr rfl)

theorem shapeOk_get_weather (location intent : String) (date : PDateTime)
    (apiKey : Option String) (net : Request → NetResult) :
    ShapeOk (get_weather location intent date apiKey net).1 := by
  unfold get_weather
  split
  · exact fun e he => Except.noConfusion he
  · cases hnet : net (.current location) with
    | transportError m =>
      exact fun e he => Except.noConfusion he
    | payload data =>
      exact shapeOk_catchKeyError _ (bodyOk_getWeatherBody location intent data)

theorem shapeOk_get_forecast (location : String) (date : PDateTime)
    (apiKey : Option String) (net : Request → NetResult) :
    ShapeOk (get_forecast location date apiKey net).1 := by
  unfold get_forecast
  split
  · exact fun e he => Except.noConfusion he
  · cases hnet : net (.forecast location) with
    | transportError m =>
      exact fun e he => Except.noConfusion he
    | payload data =>
      exact shapeOk_catchKeyError _ (bodyOk_getForecastBody location date data)

theorem shapeOk_entry_point (q : String) (doc : Doc)
    (parse : String → Option PDateTime) (now : PDateTime)
    (apiKey : Option String) (net : Request → NetResult) :
    ShapeOk (get_weather_response q doc parse now apiKey net).1 := by
  unfold get_weather_response
  cases hd : dispatchOf q doc parse now with
  | past => exact fun e he => Except.noConfusion he
  | limit d => exact fun e he => Except.noConfusion he
  | fetchForecast loc d => exact shapeOk_get_forecast loc d apiKey net
  | fetchWeather loc i d => exact shapeOk_get_weather loc i d apiKey net
  | locationOnly => exact fun e he => Except.noConfusion he
  | nothingUnderstood => exact fun e he => Except.noConfusion he

/-- Claim C2, counterexample: the claim says the entry point never raises and
resolves every failure to a returned string.  It is false: the source
catches only `RequestException` and `KeyError`, so a payload that decodes
but carries an empty `weather` list makes the indexing step raise an uncaught
`IndexError` that escapes `get_weather_response`.  Concretely: a plain
current-weather question about London, a configured key, and a 200
response whose body is `{"weather": [], "main": {"temp": 72}}`. -/
theorem C2_counterexample :
    get_weather_response "What is the weather in London?" docLondon parseNone now0
        (some "k") netEmptyWeather
      = (.error .indexError, [.current "London"]) := rfl

/-- Claim C2, amended: the entry point resolves every modelled failure
among network failure, undecodable payload, missing dictionary key,
missing credential and policy rejection to a returned string; the only
exceptions that can escape it are the payload-shape errors the source
does not catch (`IndexError`, `TypeError`, `AttributeError` from indexing
or method calls on an unexpectedly-shaped decoded payload).  In
particular no `RequestException` and no `KeyError` ever escapes. -/
theorem C2_entry_point_exceptions (q : String) (doc : Doc)
    (parse : String → Option PDateTime) (now : PDateTime)
    (apiKey : Option String) (net : Request → NetResult) :
    (∃ s, (get_weather_response q doc parse now apiKey net).1 = Except.ok s)
    ∨ (∃ e, (get_weather_response q doc parse now apiKey net).1 = Except.error e
        ∧ (e = PyExc.indexError ∨ e = PyExc.typeError ∨ e = PyExc.attributeError)) := by
  cases hr : (get_weather_response q doc parse now apiKey net).1 with
  | ok s => exact Or.inl ⟨s, rfl⟩
  | error e =>
    exact Or.inr ⟨e, rfl, shapeOk_entry_point q doc parse now apiKey net e hr⟩

end WeatherBot
